import Mathlib

/-!
Verification of the Opportunity Risk Score (ORS) engine of `src/app.py`.

The engine is shallowly embedded: Python floats used for money and
percentages are modelled as exact rationals (`ℚ`), integer scores as `ℤ`,
and the one fallible operation — the Downsell ratio at app.py line 74,
where Python raises `ZeroDivisionError` when the divisor is zero — is
modelled with `Option`.  Every definition mirrors the corresponding block
of `src/app.py`.
-/

namespace ORS

/-- Deal types, the options of the `deal_type` selectbox (app.py lines 11-14). -/
inductive DealType where
  | NetNew
  | Upsell
  | Downsell
  | CrossSell
  | Cancellation
deriving DecidableEq, Repr

/-- Revenue types, the options of the `revenue_types` multiselect (app.py lines 16-20). -/
inductive RevenueType where
  | TimeAndMaterial
  | Project
  | License
  | ManagedService
deriving DecidableEq, Repr

/-- One evaluation's inputs, as collected by the sidebar widgets
(app.py lines 11-51).  `acv` holds the single ACV figure of the form:
the "Current ACV" field for Cancellation/Downsell and the "ACV" field
otherwise; `growthAcv` is the "Growth ACV" field shown for Upsell. -/
structure DealInput where
  dealType : DealType
  revenueTypes : Finset RevenueType
  acv : ℚ
  growthAcv : ℚ
  discountPct : ℚ
  tcvTermYears : ℤ
  projectDurationMonths : ℤ
  psValue : ℚ
  paymentDays : ℤ
  strategic : Bool
  minTermMet : Bool
  bundleCompatible : Bool
  nonStandardContract : Bool
  breakClauseNoPenalty : Bool
  customerHealth : ℤ
deriving DecidableEq

/-- The documented input domain (spec section 3): widget ranges of app.py. -/
def ValidInput (i : DealInput) : Prop :=
  0 ≤ i.acv ∧ 0 ≤ i.growthAcv ∧
  0 ≤ i.discountPct ∧ i.discountPct ≤ 1 ∧
  1 ≤ i.tcvTermYears ∧ i.tcvTermYears ≤ 5 ∧
  1 ≤ i.projectDurationMonths ∧ i.projectDurationMonths ≤ 24 ∧
  0 ≤ i.psValue ∧
  (i.paymentDays = 30 ∨ i.paymentDays = 45 ∨ i.paymentDays = 60 ∨ i.paymentDays = 90) ∧
  0 ≤ i.customerHealth ∧ i.customerHealth ≤ 100

instance (i : DealInput) : Decidable (ValidInput i) := by
  unfold ValidInput; infer_instance

/-- ACV figure feeding the base-score thresholds (app.py lines 23-35):
the one ACV field of the form, whatever the deal type. -/
def acv_for_base (i : DealInput) : ℚ := i.acv

/-- ACV figure feeding the multiplier (app.py lines 23-35): the growth
ACV for Upsell, the base ACV otherwise. -/
def acv_for_multiplier (i : DealInput) : ℚ :=
  if i.dealType = DealType.Upsell then i.growthAcv else acv_for_base i

/-- Divisor of the Downsell ratio (app.py line 74):
`acv_for_base / (1 - discount_pct) if discount_pct < 1 else 1`. -/
def downsell_divisor (acvb d : ℚ) : ℚ :=
  if d < 1 then acvb / (1 - d) else 1

/-- The Downsell ratio `acv_for_base / divisor` (app.py line 74).
Python raises `ZeroDivisionError` when the divisor is `0`, modelled
as `none`. -/
def downsell_ratio (acvb d : ℚ) : Option ℚ :=
  if downsell_divisor acvb d = 0 then none
  else some (acvb / downsell_divisor acvb d)

/-- Stage 1, the base score by deal type (app.py lines 54-110), before
the risk adders.  `none` exactly when the Downsell ratio divides by zero. -/
def base_score (i : DealInput) : Option ℤ :=
  match i.dealType with
  | DealType.Cancellation =>
      some (80
        + (if i.customerHealth < 50 then 10 else 0)
        + (if i.strategic then 15 else 0)
        + (if !i.minTermMet then 20 else 5))
  | DealType.Downsell =>
      (downsell_ratio (acv_for_base i) i.discountPct).map (fun r =>
        40
        + (if i.discountPct < -(1/4) then 30 else 0)
        + (if i.discountPct > 1/4 then 30 else 0)
        + (if r < 1/2 then 20 else 0)
        + (if RevenueType.License ∈ i.revenueTypes ∨
              RevenueType.ManagedService ∈ i.revenueTypes then 15 else 5))
  | DealType.Upsell =>
      some (20
        + (if RevenueType.License ∈ i.revenueTypes then
             (if i.discountPct > 1/2 then 25
              else if i.discountPct > 3/20 then 10 else 0)
           else 0)
        + (if RevenueType.TimeAndMaterial ∈ i.revenueTypes ∧ i.discountPct > 1/5
           then 10 else 0))
  | DealType.CrossSell =>
      some (25 + 15
        + (if 1 < i.revenueTypes.card then 10 else 0)
        + (if !i.bundleCompatible then 20 else 0)
        + (if acv_for_base i > 150000 then 25
           else if acv_for_base i > 50000 then 10 else 0))
  | DealType.NetNew =>
      some (35
        + (if 1 < i.revenueTypes.card then 15 else 0)
        + (if RevenueType.Project ∈ i.revenueTypes then 10 else 0)
        + (if acv_for_base i > 500000 then 30
           else if acv_for_base i > 150000 then 15 else 0)
        + (if !i.bundleCompatible then 25 else 0))

/-- Discount risk adder (app.py lines 113-118). -/
def disc_risk (d : ℚ) : ℤ :=
  if d < 1/10 then 0 else if d ≤ 1/5 then 10 else 20

/-- Term risk adder (app.py line 120). -/
def term_risk (i : DealInput) : ℤ :=
  if i.dealType = DealType.NetNew ∧ i.tcvTermYears < 3 then 20 else 0

/-- Project-duration risk adder (app.py line 121). -/
def proj_risk (i : DealInput) : ℤ :=
  if RevenueType.Project ∈ i.revenueTypes ∧ 12 < i.projectDurationMonths
  then 15 else 0

/-- Professional-services risk adder (app.py line 122). -/
def ps_risk (i : DealInput) : ℤ :=
  if 75000 < i.psValue then 10 else 0

/-- Payment-terms risk adder (app.py lines 124-130). -/
def pay_risk (i : DealInput) : ℤ :=
  if i.paymentDays = 45 then 5
  else if i.paymentDays = 60 then 10
  else if 90 ≤ i.paymentDays then 20 else 0

/-- Sum of the five risk adders (app.py line 132). -/
def adders (i : DealInput) : ℤ :=
  disc_risk i.discountPct + term_risk i + proj_risk i + ps_risk i + pay_risk i

/-- Stage 2 output: base score plus adders, clamped to [0,100]
(app.py lines 132-133). -/
def base_ors (i : DealInput) : Option ℤ :=
  (base_score i).map (fun b => min 100 (max 0 (b + adders i)))

/-- Stage 3 step function from the multiplier ACV to the multiplier
(app.py lines 136-145). -/
def resolveMultiplier (a : ℚ) : ℚ :=
  if a ≤ 50000 then 4/5
  else if a ≤ 150000 then 1
  else if a ≤ 500000 then 13/10
  else if a ≤ 1000000 then 8/5
  else 2

/-- The multiplier of an evaluation. -/
def multiplier (i : DealInput) : ℚ :=
  resolveMultiplier (acv_for_multiplier i)

/-- Pre-override score `min(100, base_ors * multiplier)` (app.py line 147). -/
def pre_override (i : DealInput) : Option ℚ :=
  (base_ors i).map (fun (b : ℤ) => min 100 ((b : ℚ) * multiplier i))

/-- Stage 4 overrides (app.py lines 150-155): non-standard-contract floor
of 50, break-clause absolute set to 95, then the cap at 100. -/
def applyOverrides (pre : ℚ) (nonStandard breakNoPenalty : Bool) : ℚ :=
  let f1 := if nonStandard then max pre 50 else pre
  let f2 := if breakNoPenalty then 95 else f1
  min 100 f2

/-- Final ORS after the overrides (app.py lines 150-155). -/
def final_ors (i : DealInput) : Option ℚ :=
  (pre_override i).map (fun p =>
    applyOverrides p i.nonStandardContract i.breakClauseNoPenalty)

/-- Risk tiers (app.py lines 166-174). -/
inductive Tier where
  | Low
  | Medium
  | High
deriving DecidableEq, Repr

/-- Tier classification of a final score (app.py lines 166-174). -/
def tier (f : ℚ) : Tier :=
  if f ≤ 30 then Tier.Low
  else if f ≤ 60 then Tier.Medium
  else Tier.High

/-- Approver derivation (app.py lines 179-189), in the order the code
appends them. -/
def approvers (i : DealInput) (f : ℚ) : List String :=
  (if 30 < f then ["Sales Ops"] else [])
  ++ (if 60 < f then
        ["RevOps", "Finance"]
        ++ (if RevenueType.License ∈ i.revenueTypes ∨ i.breakClauseNoPenalty
            then ["Legal"] else [])
        ++ (if RevenueType.Project ∈ i.revenueTypes
            then ["Delivery Lead"] else [])
      else [])
  ++ (if i.dealType = DealType.Downsell ∨ i.dealType = DealType.Cancellation
      then ["CSM"] else [])

/-- The output of one evaluation. -/
structure ScoreResult where
  baseOrs : ℤ
  multiplier : ℚ
  finalOrs : ℚ
  tier : Tier
  approvers : List String
deriving DecidableEq, Repr

/-- The whole engine (app.py lines 53-189): `none` exactly when the
Python script raises `ZeroDivisionError` at line 74. -/
def evaluate (i : DealInput) : Option ScoreResult :=
  (base_ors i).map (fun (b : ℤ) =>
    let m := multiplier i
    let p := min 100 ((b : ℚ) * m)
    let f := applyOverrides p i.nonStandardContract i.breakClauseNoPenalty
    { baseOrs := b
      multiplier := m
      finalOrs := f
      tier := tier f
      approvers := approvers i f })

/-- The literal `< 0.5` test of app.py line 74, as an `Option Bool`:
`none` when Python would raise, `some true` when the +20 branch fires. -/
def downsell_ratio_lt_half (acvb d : ℚ) : Option Bool :=
  (downsell_ratio acvb d).map (fun r => decide (r < 1/2))

/-- Replace only the discount of an input, for the monotonicity claim. -/
def setDiscount (i : DealInput) (d : ℚ) : DealInput :=
  { i with discountPct := d }

/-- Scenario A of the spec (section 8): NetNew, revenueTypes = \x7bProject\x7d,
acv = 180000, discount 25%, term 2y, duration 14 months, PS 90000,
60-day payment, bundle-incompatible, all flags false, health 65. -/
def scenA : DealInput :=
  { dealType := DealType.NetNew
    revenueTypes := {RevenueType.Project}
    acv := 180000
    growthAcv := 0
    discountPct := 1/4
    tcvTermYears := 2
    projectDurationMonths := 14
    psValue := 90000
    paymentDays := 60
    strategic := false
    minTermMet := false
    bundleCompatible := false
    nonStandardContract := false
    breakClauseNoPenalty := false
    customerHealth := 65 }

/-- Scenario A with the break-clause flag set. -/
def scenABreak : DealInput :=
  { scenA with breakClauseNoPenalty := true }

/-- Downsell with a current ACV of zero and a 25% discount: a valid
input on which app.py line 74 divides by zero. -/
def downZero : DealInput :=
  { scenA with dealType := DealType.Downsell, acv := 0 }

/-- The zero-ACV Downsell with the break-clause flag also set. -/
def downZeroBreak : DealInput :=
  { downZero with breakClauseNoPenalty := true }

/-- The zero-ACV Downsell with a 60% discount. -/
def downZeroHigh : DealInput :=
  { downZero with discountPct := 3/5 }

/-- Downsell with a positive current ACV and a 60% discount. -/
def downPos : DealInput :=
  { scenA with dealType := DealType.Downsell, acv := 200000, discountPct := 3/5 }

/-- Scenario B of the spec (section 8): a Cancellation deal, current ACV
200000, minimum term met, not strategic, health 65, License revenue. -/
def cancB : DealInput :=
  { dealType := DealType.Cancellation
    revenueTypes := {RevenueType.License}
    acv := 200000
    growthAcv := 0
    discountPct := 0
    tcvTermYears := 2
    projectDurationMonths := 1
    psValue := 0
    paymentDays := 30
    strategic := false
    minTermMet := true
    bundleCompatible := false
    nonStandardContract := false
    breakClauseNoPenalty := false
    customerHealth := 65 }

end ORS

namespace ORS

/-! ### Helper lemmas -/

/-- With a nonzero numerator and a discount below 1, the literal ratio of
app.py line 74 simplifies to `1 - d`. -/
theorem downsell_ratio_of_ne (acvb d : ℚ) (ha : acvb ≠ 0) (hd : d < 1) :
    downsell_ratio acvb d = some (1 - d) := by
  have h1 : (1 : ℚ) - d ≠ 0 := sub_ne_zero.mpr (by linarith)
  unfold downsell_ratio downsell_divisor
  rw [if_pos hd, if_neg (div_ne_zero ha h1)]
  rw [div_div_eq_mul_div, mul_comm, mul_div_assoc, div_self ha, mul_one]

/-- With a zero numerator and a discount below 1, app.py line 74 divides
by zero. -/
theorem downsell_ratio_zero (d : ℚ) (hd : d < 1) :
    downsell_ratio 0 d = none := by
  unfold downsell_ratio downsell_divisor
  rw [if_pos hd, zero_div, if_pos rfl]

/-- With a discount of at least 1, the divisor is the defaulted 1. -/
theorem downsell_ratio_of_ge (acvb d : ℚ) (hd : ¬ d < 1) :
    downsell_ratio acvb d = some acvb := by
  unfold downsell_ratio downsell_divisor
  rw [if_neg hd, if_neg one_ne_zero, div_one]

/-- The resolved multiplier is always one of the five tier values. -/
theorem resolveMultiplier_mem (a : ℚ) :
    resolveMultiplier a = 4/5 ∨ resolveMultiplier a = 1 ∨
    resolveMultiplier a = 13/10 ∨ resolveMultiplier a = 8/5 ∨
    resolveMultiplier a = 2 := by
  unfold resolveMultiplier
  split_ifs <;> simp

/-- The resolved multiplier is at least 4/5. -/
theorem resolveMultiplier_ge (a : ℚ) : 4/5 ≤ resolveMultiplier a := by
  unfold resolveMultiplier
  split_ifs <;> norm_num

/-- Every risk adder is non-negative, hence so is their sum. -/
theorem adders_nonneg (i : DealInput) : 0 ≤ adders i := by
  unfold adders disc_risk term_risk proj_risk ps_risk pay_risk
  split_ifs <;> norm_num

/-- Destructuring a successful evaluation into its stages. -/
theorem evaluate_eq_some (i : DealInput) (r : ScoreResult)
    (h : evaluate i = some r) :
    ∃ b : ℤ, base_ors i = some b ∧
      r.baseOrs = b ∧
      r.multiplier = multiplier i ∧
      r.finalOrs = applyOverrides (min 100 ((b : ℚ) * multiplier i))
        i.nonStandardContract i.breakClauseNoPenalty ∧
      r.tier = tier r.finalOrs ∧
      r.approvers = approvers i r.finalOrs := by
  rcases Option.map_eq_some'.mp h with ⟨b, hb, hr⟩
  exact ⟨b, hb, by rw [← hr], by rw [← hr], by rw [← hr], by rw [← hr],
    by rw [← hr]⟩

/-- The value of a successful clamped stage-2 score. -/
theorem base_ors_eq_some (i : DealInput) (b : ℤ)
    (h : base_ors i = some b) :
    ∃ s : ℤ, base_score i = some s ∧ b = min 100 (max 0 (s + adders i)) := by
  rcases Option.map_eq_some'.mp h with ⟨s, hs, hb⟩
  exact ⟨s, hs, hb.symm⟩

/-- The final score of a successful evaluation, through `final_ors`. -/
theorem final_ors_of_evaluate (i : DealInput) (r : ScoreResult)
    (h : evaluate i = some r) : final_ors i = some r.finalOrs := by
  rcases Option.map_eq_some'.mp h with ⟨b, hb, hr⟩
  subst hr
  simp [final_ors, pre_override, hb]

/-- The clamp of stage 2 keeps the score within [0,100]. -/
theorem clamp_mem (s : ℤ) : 0 ≤ min 100 (max 0 s) ∧ min 100 (max 0 s) ≤ 100 :=
  ⟨le_min (by norm_num) (le_max_left 0 s), min_le_left 100 (max 0 s)⟩

/-- The override stage keeps a non-negative pre-override score within
[0,100]. -/
theorem applyOverrides_mem (p : ℚ) (ns bc : Bool) (hp : 0 ≤ p) :
    0 ≤ applyOverrides p ns bc ∧ applyOverrides p ns bc ≤ 100 := by
  unfold applyOverrides
  refine ⟨le_min (by norm_num) ?_, min_le_left _ _⟩
  split_ifs <;> first | exact hp | exact le_max_of_le_left hp | norm_num

end ORS

namespace ORS

/-! ### Claim theorems -/

/-- C1 counterexample: the valid input with dealType = Downsell,
acvForBase = 0 and discountPct = 1/4 < 1 makes app.py line 74 divide by
zero (the divisor `acv_for_base / (1 - discount_pct)` is 0, and the
guard only covers discountPct ≥ 1), so the evaluation is not defined. -/
theorem c1_counterexample : ValidInput downZero ∧ evaluate downZero = none := by
  constructor
  · norm_num [ValidInput, downZero, scenA]
  · norm_num [evaluate, base_ors, base_score, downsell_ratio,
      downsell_divisor, acv_for_base, downZero, scenA]

/-- C1 (amended): the evaluation is defined on every valid DealInput
except those with dealType = Downsell, acvForBase = 0 and
discountPct < 1, where the Downsell ratio divides by zero. -/
theorem c1_totality (i : DealInput) (h : ValidInput i)
    (hd : i.dealType = DealType.Downsell → i.acv ≠ 0 ∨ 1 ≤ i.discountPct) :
    (evaluate i).isSome = true := by
  have hbs : (base_score i).isSome = true := by
    cases hdt : i.dealType
    case NetNew => simp [base_score, hdt]
    case Upsell => simp [base_score, hdt]
    case CrossSell => simp [base_score, hdt]
    case Cancellation => simp [base_score, hdt]
    case Downsell =>
      simp only [base_score, hdt, Option.isSome_map]
      by_cases hlt : i.discountPct < 1
      · rcases hd hdt with ha | hge
        · rw [downsell_ratio_of_ne (acv_for_base i) i.discountPct ha hlt]; rfl
        · exact absurd hlt (not_lt.mpr hge)
      · rw [downsell_ratio_of_ge (acv_for_base i) i.discountPct hlt]; rfl
  obtain ⟨s, hs⟩ := Option.isSome_iff_exists.mp hbs
  simp [evaluate, base_ors, hs]

/-- C1 witness: a valid Downsell with positive current ACV evaluates. -/
theorem c1_witness : ValidInput downPos ∧ (evaluate downPos).isSome = true :=
  ⟨by norm_num [ValidInput, downPos, scenA],
   c1_totality downPos (by norm_num [ValidInput, downPos, scenA])
     (fun _ => Or.inl (by norm_num [downPos, scenA]))⟩

/-- C2: whenever a valid input produces a result, its baseOrs is the
clamp of baseScore plus the adder sum to [0,100], and both the baseOrs
and the finalOrs lie within [0,100]. -/
theorem c2_scores_in_range (i : DealInput) (r : ScoreResult)
    (h : ValidInput i) (he : evaluate i = some r) :
    (0 ≤ r.baseOrs ∧ r.baseOrs ≤ 100) ∧
    (0 ≤ r.finalOrs ∧ r.finalOrs ≤ 100) ∧
    ∀ s : ℤ, base_score i = some s →
      r.baseOrs = min 100 (max 0 (s + adders i)) := by
  rcases evaluate_eq_some i r he with ⟨b, hbors, hbeq, hmeq, hfeq, _, _⟩
  rcases base_ors_eq_some i b hbors with ⟨s, hs, hbv⟩
  have hb0 : (0 : ℤ) ≤ b := hbv ▸ (clamp_mem (s + adders i)).1
  refine ⟨?_, ?_, ?_⟩
  · rw [hbeq, hbv]; exact clamp_mem _
  · rw [hfeq]
    apply applyOverrides_mem
    have hm : (0 : ℚ) ≤ multiplier i :=
      le_trans (by norm_num) (resolveMultiplier_ge _)
    exact le_min (by norm_num) (mul_nonneg (by exact_mod_cast hb0) hm)
  · intro s2 hs2
    rw [hs2] at hs
    rw [hbeq, hbv, Option.some_inj.mp hs]

/-- C2 witness: Scenario A is valid, produces a result, and the bounds
hold there. -/
theorem c2_witness :
    ValidInput scenA ∧
    (evaluate scenA).isSome = true ∧
    ∀ r : ScoreResult, evaluate scenA = some r →
      (0 ≤ r.baseOrs ∧ r.baseOrs ≤ 100) ∧ 0 ≤ r.finalOrs ∧ r.finalOrs ≤ 100 := by
  have hv : ValidInput scenA := by norm_num [ValidInput, scenA]
  refine ⟨hv, ?_, fun r hr => ⟨(c2_scores_in_range scenA r hv hr).1,
    (c2_scores_in_range scenA r hv hr).2.1⟩⟩
  simp only [evaluate, base_ors, base_score, Option.map_map, Option.isSome_map,
    scenA]
  rfl

/-- C3 counterexample: on the valid input with dealType = Downsell,
acvForBase = 0, discountPct = 1/4 and breakClauseNoPenalty = true, the
engine raises before reaching the override, so no finalOrs of 95 is
returned — the override is not absolute over the whole valid domain. -/
theorem c3_counterexample :
    ValidInput downZeroBreak ∧ downZeroBreak.breakClauseNoPenalty = true ∧
    (evaluate downZeroBreak).map ScoreResult.finalOrs = none := by
  refine ⟨by norm_num [ValidInput, downZeroBreak, downZero, scenA], rfl, ?_⟩
  norm_num [evaluate, base_ors, base_score, downsell_ratio, downsell_divisor,
    acv_for_base, downZeroBreak, downZero, scenA]

/-- C3 (amended): whenever a valid input with breakClauseNoPenalty = true
produces a result (every valid input except a Downsell with zero
acvForBase and discountPct < 1), its finalOrs is 95, regardless of every
other field and of the pre-override score. -/
theorem c3_break_forces_95 (i : DealInput) (r : ScoreResult)
    (h : ValidInput i) (hb : i.breakClauseNoPenalty = true)
    (he : evaluate i = some r) : r.finalOrs = 95 := by
  rcases evaluate_eq_some i r he with ⟨b, _, _, _, hfeq, _, _⟩
  rw [hfeq, hb]
  unfold applyOverrides
  norm_num

/-- C3 witness: Scenario A with the break clause set returns 95. -/
theorem c3_witness :
    ValidInput scenABreak ∧ scenABreak.breakClauseNoPenalty = true ∧
    (evaluate scenABreak).map ScoreResult.finalOrs = some 95 := by
  have hv : ValidInput scenABreak := by
    norm_num [ValidInput, scenABreak, scenA]
  have he : evaluate scenABreak = some
      { baseOrs := 100, multiplier := 13/10, finalOrs := 95,
        tier := Tier.High,
        approvers := ["Sales Ops", "RevOps", "Finance", "Legal",
          "Delivery Lead"] } := by
    simp [evaluate, base_ors, base_score, adders, disc_risk, term_risk,
      proj_risk, ps_risk, pay_risk, multiplier, resolveMultiplier,
      acv_for_multiplier, acv_for_base, applyOverrides, tier, approvers,
      scenABreak, scenA]
    norm_num
  refine ⟨hv, rfl, ?_⟩
  rw [he]
  exact congrArg some (c3_break_forces_95 scenABreak _ hv rfl he)

end ORS

namespace ORS

/-- C4 counterexample: on Scenario A with the break clause set, the
pre-override score is 100 but the override stage returns 95 — the
break-clause rule lowered the score, so the stage is not
score-raising. -/
theorem c4_counterexample :
    ValidInput scenABreak ∧ pre_override scenABreak = some 100 ∧
    final_ors scenABreak = some 95 ∧ (95 : ℚ) < 100 := by
  refine ⟨by norm_num [ValidInput, scenABreak, scenA], ?_, ?_, by norm_num⟩
  · simp [pre_override, base_ors, base_score, adders, disc_risk, term_risk,
      proj_risk, ps_risk, pay_risk, multiplier, resolveMultiplier,
      acv_for_multiplier, acv_for_base, scenABreak, scenA]
    norm_num
  · simp [final_ors, pre_override, base_ors, base_score, adders, disc_risk,
      term_risk, proj_risk, ps_risk, pay_risk, multiplier, resolveMultiplier,
      acv_for_multiplier, acv_for_base, applyOverrides, scenABreak, scenA]
    norm_num

/-- C4 (amended): every override rule except the break-clause absolute
set may only raise the score — whenever breakClauseNoPenalty is false,
the finalOrs is at least the preOverride it receives. -/
theorem c4_overrides_raise (i : DealInput) (p f : ℚ) (h : ValidInput i)
    (hb : i.breakClauseNoPenalty = false)
    (hp : pre_override i = some p) (hf : final_ors i = some f) : p ≤ f := by
  rcases Option.map_eq_some'.mp hp with ⟨b, _, hpe⟩
  have hple : p ≤ 100 := by rw [← hpe]; exact min_le_left _ _
  have hf2 : f = applyOverrides p i.nonStandardContract i.breakClauseNoPenalty := by
    unfold final_ors at hf
    rw [hp] at hf
    exact (Option.some_inj.mp hf).symm
  rw [hf2, hb]
  unfold applyOverrides
  simp only [Bool.false_eq_true, if_false]
  split_ifs with hns
  · exact le_min hple (le_max_left _ _)
  · exact le_min hple le_rfl

/-- C4 witness: on Scenario A (break clause false), the override stage
keeps the pre-override score of 100. -/
theorem c4_witness :
    ValidInput scenA ∧ scenA.breakClauseNoPenalty = false ∧
    pre_override scenA = some 100 ∧ final_ors scenA = some 100 ∧
    (100 : ℚ) ≤ 100 := by
  have hv : ValidInput scenA := by norm_num [ValidInput, scenA]
  have hp : pre_override scenA = some 100 := by
    simp [pre_override, base_ors, base_score, adders, disc_risk, term_risk,
      proj_risk, ps_risk, pay_risk, multiplier, resolveMultiplier,
      acv_for_multiplier, acv_for_base, scenA]
    norm_num
  have hf : final_ors scenA = some 100 := by
    unfold final_ors
    rw [hp]
    simp [applyOverrides, scenA]
  exact ⟨hv, rfl, hp, hf, c4_overrides_raise scenA 100 100 hv rfl hp hf⟩

/-- C5: Scenario A (NetNew, Project only, acv 180000, 25% discount,
2-year term, 14-month duration, PS 90000, 60-day payment, not bundle
compatible, flags false, health 65) yields base 85, adders 75,
baseOrs 100, multiplier 1.3, finalOrs 100, High tier, and approvers
Sales Ops, RevOps, Finance and Delivery Lead without Legal. -/
theorem c5_scenario_a :
    ValidInput scenA ∧
    base_score scenA = some 85 ∧
    adders scenA = 75 ∧
    base_ors scenA = some 100 ∧
    multiplier scenA = 13/10 ∧
    evaluate scenA = some
      { baseOrs := 100, multiplier := 13/10, finalOrs := 100,
        tier := Tier.High,
        approvers := ["Sales Ops", "RevOps", "Finance", "Delivery Lead"] } ∧
    "Legal" ∉ approvers scenA 100 := by
  refine ⟨by norm_num [ValidInput, scenA], ?_, ?_, ?_, ?_, ?_, ?_⟩
  · norm_num [base_score, scenA, acv_for_base]
  · norm_num [adders, disc_risk, term_risk, proj_risk, ps_risk, pay_risk,
      scenA]
  · norm_num [base_ors, base_score, adders, disc_risk, term_risk, proj_risk,
      ps_risk, pay_risk, acv_for_base, scenA]
  · simp [multiplier, resolveMultiplier, acv_for_multiplier, acv_for_base,
      scenA]
    norm_num
  · simp [evaluate, base_ors, base_score, adders, disc_risk, term_risk,
      proj_risk, ps_risk, pay_risk, multiplier, resolveMultiplier,
      acv_for_multiplier, acv_for_base, applyOverrides, tier, approvers,
      scenA]
    norm_num
  · simp [approvers, scenA]

/-- C6: the multiplier ACV is the growth ACV exactly for Upsell, the
resolver is the documented step function, and every multiplier is one
of 0.8, 1.0, 1.3, 1.6 and 2.0. -/
theorem c6_multiplier_step (i : DealInput) (a : ℚ) (h : ValidInput i)
    (ha : 0 ≤ a) :
    acv_for_multiplier i =
      (if i.dealType = DealType.Upsell then i.growthAcv else acv_for_base i) ∧
    resolveMultiplier a =
      (if a ≤ 50000 then 4/5
       else if a ≤ 150000 then 1
       else if a ≤ 500000 then 13/10
       else if a ≤ 1000000 then 8/5
       else 2) ∧
    (multiplier i = 4/5 ∨ multiplier i = 1 ∨ multiplier i = 13/10 ∨
     multiplier i = 8/5 ∨ multiplier i = 2) :=
  ⟨rfl, rfl, resolveMultiplier_mem (acv_for_multiplier i)⟩

/-- C6 witness: Scenario A is valid and its multiplier is in the set. -/
theorem c6_witness :
    ValidInput scenA ∧ (0 : ℚ) ≤ 0 ∧
    (multiplier scenA = 4/5 ∨ multiplier scenA = 1 ∨
     multiplier scenA = 13/10 ∨ multiplier scenA = 8/5 ∨
     multiplier scenA = 2) :=
  ⟨by norm_num [ValidInput, scenA], le_rfl,
   (c6_multiplier_step scenA 0 (by norm_num [ValidInput, scenA]) le_rfl).2.2⟩

/-- C7: the tier is a pure function of finalOrs with boundaries inclusive
on the lower tier — at most 30 is Low, above 30 up to 60 is Medium,
above 60 is High. -/
theorem c7_tier_boundaries (f : ℚ) :
    (f ≤ 30 → tier f = Tier.Low) ∧
    (30 < f ∧ f ≤ 60 → tier f = Tier.Medium) ∧
    (60 < f → tier f = Tier.High) := by
  refine ⟨fun h1 => ?_, fun h2 => ?_, fun h3 => ?_⟩ <;> unfold tier
  · rw [if_pos h1]
  · rw [if_neg (not_le.mpr h2.1), if_pos h2.2]
  · rw [if_neg (not_le.mpr (lt_trans (by norm_num) h3)),
      if_neg (not_le.mpr h3)]

/-- C7 witness: the four boundary values 30, 31, 60 and 61. -/
theorem c7_witness :
    tier 30 = Tier.Low ∧ tier 31 = Tier.Medium ∧ tier 60 = Tier.Medium ∧
    tier 61 = Tier.High :=
  ⟨(c7_tier_boundaries 30).1 (by norm_num),
   (c7_tier_boundaries 31).2.1 (by norm_num),
   (c7_tier_boundaries 60).2.1 (by norm_num),
   (c7_tier_boundaries 61).2.2 (by norm_num)⟩

end ORS

namespace ORS

/-- C8 counterexample: on the valid Downsell input with acvForBase = 0
and discountPct = 3/5 < 1, the simplified condition discountPct > 1/2
holds, yet the literal ratio test cannot fire — line 74 divides by
zero — so the claimed equivalence fails on that input. -/
theorem c8_counterexample :
    ValidInput downZeroHigh ∧ downZeroHigh.discountPct < 1 ∧
    1/2 < downZeroHigh.discountPct ∧
    downsell_ratio_lt_half (acv_for_base downZeroHigh)
      downZeroHigh.discountPct ≠ some true := by
  refine ⟨by norm_num [ValidInput, downZeroHigh, downZero, scenA],
    by norm_num [downZeroHigh, downZero, scenA],
    by norm_num [downZeroHigh, downZero, scenA], ?_⟩
  norm_num [downsell_ratio_lt_half, downsell_ratio, downsell_divisor,
    acv_for_base, downZeroHigh, downZero, scenA]
  simp

/-- C8 (amended): for every valid DealInput with discountPct < 1 and a
nonzero acvForBase, the literal ratio test of app.py line 74 fires
exactly when discountPct > 1/2 — the literal formula is equivalent to
the simplification on that sub-domain. -/
theorem c8_ratio_equiv (i : DealInput) (h : ValidInput i)
    (h1 : i.discountPct < 1) (h0 : acv_for_base i ≠ 0) :
    downsell_ratio_lt_half (acv_for_base i) i.discountPct = some true ↔
      1/2 < i.discountPct := by
  rw [downsell_ratio_lt_half,
    downsell_ratio_of_ne (acv_for_base i) i.discountPct h0 h1]
  simp only [Option.map_some', Option.some.injEq, decide_eq_true_eq]
  constructor <;> intro hx <;> linarith

/-- C8 witness: a valid Downsell with current ACV 200000 and a 60%
discount, where the test fires. -/
theorem c8_witness :
    ValidInput downPos ∧ downPos.discountPct < 1 ∧
    acv_for_base downPos ≠ 0 ∧
    downsell_ratio_lt_half (acv_for_base downPos) downPos.discountPct =
      some true := by
  have hv : ValidInput downPos := by norm_num [ValidInput, downPos, scenA]
  have h1 : downPos.discountPct < 1 := by norm_num [downPos, scenA]
  have h0 : acv_for_base downPos ≠ 0 := by
    norm_num [acv_for_base, downPos, scenA]
  exact ⟨hv, h1, h0, (c8_ratio_equiv downPos hv h1 h0).mpr
    (by norm_num [downPos, scenA])⟩

end ORS

namespace ORS

/-- C10: every valid Cancellation deal has a base score of at least 85,
and whenever it produces a result its finalOrs exceeds 60 and its tier
is High — a Cancellation can never be Low or Medium. -/
theorem c10_cancellation_high (i : DealInput) (h : ValidInput i)
    (hdt : i.dealType = DealType.Cancellation) :
    (∀ b : ℤ, base_score i = some b → 85 ≤ b) ∧
    (∀ r : ScoreResult, evaluate i = some r →
      60 < r.finalOrs ∧ r.tier = Tier.High) := by
  have hbase : ∀ b : ℤ, base_score i = some b → 85 ≤ b := by
    intro b hb
    simp [base_score, hdt] at hb
    split_ifs at hb <;> omega
  refine ⟨hbase, fun r hr => ?_⟩
  rcases evaluate_eq_some i r hr with ⟨b, hbors, hbeq, _, hfeq, htier, _⟩
  rcases base_ors_eq_some i b hbors with ⟨s, hs, hbv⟩
  have hs85 : (85 : ℤ) ≤ s := hbase s hs
  have hb85 : (85 : ℤ) ≤ b := by
    rw [hbv]
    have hadd := adders_nonneg i
    have h1 : (85 : ℤ) ≤ s + adders i := by omega
    exact le_min (by norm_num) (le_trans h1 (le_max_right 0 _))
  have hm : (4/5 : ℚ) ≤ multiplier i := resolveMultiplier_ge _
  have hmul : (68 : ℚ) ≤ (b : ℚ) * multiplier i := by
    have hbq : (85 : ℚ) ≤ (b : ℚ) := by exact_mod_cast hb85
    calc (68 : ℚ) = 85 * (4/5) := by norm_num
    _ ≤ (b : ℚ) * multiplier i := mul_le_mul hbq hm (by norm_num) (by linarith)
  have hp : (60 : ℚ) < min 100 ((b : ℚ) * multiplier i) :=
    lt_min (by norm_num) (by linarith)
  have hf : 60 < r.finalOrs := by
    rw [hfeq]
    unfold applyOverrides
    refine lt_min (by norm_num) ?_
    split_ifs
    · norm_num
    · exact lt_of_lt_of_le hp (le_max_left _ _)
    · exact hp
  refine ⟨hf, ?_⟩
  rw [htier]
  unfold tier
  rw [if_neg (not_le.mpr (lt_trans (by norm_num) hf)), if_neg (not_le.mpr hf)]

/-- C10 witness: Scenario B, a valid Cancellation with base score 85
that evaluates to a High tier. -/
theorem c10_witness :
    ValidInput cancB ∧ cancB.dealType = DealType.Cancellation ∧
    base_score cancB = some 85 ∧ (85 : ℤ) ≤ 85 ∧
    (evaluate cancB).map ScoreResult.tier = some Tier.High := by
  have hv : ValidInput cancB := by norm_num [ValidInput, cancB]
  have hc := c10_cancellation_high cancB hv rfl
  have hbs : base_score cancB = some 85 := by
    norm_num [base_score, cancB]
  have he : evaluate cancB = some
      { baseOrs := 85, multiplier := 13/10, finalOrs := 100,
        tier := Tier.High,
        approvers := ["Sales Ops", "RevOps", "Finance", "Legal", "CSM"] } := by
    simp [evaluate, base_ors, base_score, adders, disc_risk, term_risk,
      proj_risk, ps_risk, pay_risk, multiplier, resolveMultiplier,
      acv_for_multiplier, acv_for_base, applyOverrides, tier, approvers,
      cancB]
    norm_num
  refine ⟨hv, rfl, hbs, hc.1 85 hbs, ?_⟩
  rw [he]
  exact congrArg some (hc.2 _ he).2

end ORS

namespace ORS

/-- The discount risk adder is monotone in the discount. -/
theorem disc_risk_mono (d1 d2 : ℚ) (hle : d1 ≤ d2) :
    disc_risk d1 ≤ disc_risk d2 := by
  unfold disc_risk
  split_ifs <;> linarith

/-- The adder sum is monotone in the discount (only the discount adder
reads it). -/
theorem adders_mono (i : DealInput) (d1 d2 : ℚ) (hle : d1 ≤ d2) :
    adders (setDiscount i d1) ≤ adders (setDiscount i d2) := by
  have ht : term_risk (setDiscount i d1) = term_risk (setDiscount i d2) := rfl
  have hpr : proj_risk (setDiscount i d1) = proj_risk (setDiscount i d2) := rfl
  have hps : ps_risk (setDiscount i d1) = ps_risk (setDiscount i d2) := rfl
  have hpy : pay_risk (setDiscount i d1) = pay_risk (setDiscount i d2) := rfl
  have hdp1 : (setDiscount i d1).discountPct = d1 := rfl
  have hdp2 : (setDiscount i d2).discountPct = d2 := rfl
  unfold adders
  rw [ht, hpr, hps, hpy, hdp1, hdp2]
  have hd := disc_risk_mono d1 d2 hle
  linarith

/-- The override stage is monotone in the pre-override score. -/
theorem applyOverrides_mono (p1 p2 : ℚ) (ns bc : Bool) (h : p1 ≤ p2) :
    applyOverrides p1 ns bc ≤ applyOverrides p2 ns bc := by
  unfold applyOverrides
  cases bc
  · cases ns
    · show min 100 p1 ≤ min 100 p2
      exact min_le_min le_rfl h
    · show min 100 (max p1 50) ≤ min 100 (max p2 50)
      exact min_le_min le_rfl (max_le_max h le_rfl)
  · show min (100 : ℚ) 95 ≤ min 100 95
    exact le_rfl

/-- The base score is monotone when the discount rises from at most 1/5:
below that starting point no Downsell or Upsell discount branch can
switch off. -/
theorem base_score_mono (i : DealInput) (d1 d2 : ℚ)
    (h0 : 0 ≤ d1) (hle : d1 ≤ d2) (hcap : d1 ≤ 1/5) (b1 b2 : ℤ)
    (e1 : base_score (setDiscount i d1) = some b1)
    (e2 : base_score (setDiscount i d2) = some b2) : b1 ≤ b2 := by
  cases hdt : i.dealType
  case NetNew =>
    simp only [base_score, setDiscount, hdt, acv_for_base,
      Option.some.injEq] at e1 e2
    rw [← e1, ← e2]
  case CrossSell =>
    simp only [base_score, setDiscount, hdt, acv_for_base,
      Option.some.injEq] at e1 e2
    rw [← e1, ← e2]
  case Cancellation =>
    simp only [base_score, setDiscount, hdt, acv_for_base,
      Option.some.injEq] at e1 e2
    rw [← e1, ← e2]
  case Upsell =>
    simp only [base_score, setDiscount, hdt, acv_for_base,
      Option.some.injEq] at e1 e2
    rw [← e1, ← e2]
    by_cases hLic : RevenueType.License ∈ i.revenueTypes <;>
      by_cases hTM : RevenueType.TimeAndMaterial ∈ i.revenueTypes <;>
        simp only [hLic, hTM, if_true, if_false, true_and, false_and,
          ite_true, ite_false] <;>
          first | (split_ifs <;> linarith) | linarith
  case Downsell =>
    have hd1lt : d1 < 1 := by linarith
    simp only [base_score, setDiscount, hdt, acv_for_base] at e1 e2
    rcases Option.map_eq_some'.mp e1 with ⟨r1, hr1, hb1⟩
    rcases Option.map_eq_some'.mp e2 with ⟨r2, hr2, hb2⟩
    subst hb1
    subst hb2
    by_cases ha : i.acv = 0
    · rw [ha, downsell_ratio_zero d1 hd1lt] at hr1
      exact absurd hr1 (by simp)
    · rw [downsell_ratio_of_ne i.acv d1 ha hd1lt] at hr1
      have hr1v : (1 : ℚ) - d1 = r1 := Option.some_inj.mp hr1
      rw [if_neg (show ¬ (d1 < -(1/4)) by linarith),
        if_neg (show ¬ (d1 > 1/4) by simp only [gt_iff_lt, not_lt]; linarith),
        if_neg (show ¬ (r1 < 1/2) by rw [← hr1v]; linarith)]
      have hA2 : (0 : ℤ) ≤ if d2 < -(1/4) then 30 else 0 := by
        split_ifs <;> norm_num
      have hB2 : (0 : ℤ) ≤ if d2 > 1/4 then 30 else 0 := by
        split_ifs <;> norm_num
      have hC2 : (0 : ℤ) ≤ if r2 < 1/2 then 20 else 0 := by
        split_ifs <;> norm_num
      linarith

end ORS

namespace ORS

/-- C9: with all other fields fixed, raising the discount across a
risk-adder boundary (from below 0.10 to at least 0.10, or from at most
0.20 to above 0.20) never decreases the finalOrs: below 0.20 every
discount-dependent branch is off, so raising the discount can only turn
branches on. -/
theorem c9_discount_monotone (i : DealInput) (d1 d2 : ℚ)
    (h1 : ValidInput (setDiscount i d1)) (h2 : ValidInput (setDiscount i d2))
    (hle : d1 ≤ d2)
    (hcross : (d1 < 1/10 ∧ 1/10 ≤ d2) ∨ (d1 ≤ 1/5 ∧ 1/5 < d2))
    (f1 f2 : ℚ)
    (e1 : final_ors (setDiscount i d1) = some f1)
    (e2 : final_ors (setDiscount i d2) = some f2) : f1 ≤ f2 := by
  have h0 : (0 : ℚ) ≤ d1 := h1.2.2.1
  have hcap : d1 ≤ 1/5 := by
    rcases hcross with ⟨hx, _⟩ | ⟨hx, _⟩ <;> linarith
  unfold final_ors at e1 e2
  rcases Option.map_eq_some'.mp e1 with ⟨p1, hp1, hf1⟩
  rcases Option.map_eq_some'.mp e2 with ⟨p2, hp2, hf2⟩
  unfold pre_override at hp1 hp2
  rcases Option.map_eq_some'.mp hp1 with ⟨bo1, hbo1, hpe1⟩
  rcases Option.map_eq_some'.mp hp2 with ⟨bo2, hbo2, hpe2⟩
  rcases base_ors_eq_some _ _ hbo1 with ⟨s1, hs1, hbv1⟩
  rcases base_ors_eq_some _ _ hbo2 with ⟨s2, hs2, hbv2⟩
  have hsle : s1 ≤ s2 := base_score_mono i d1 d2 h0 hle hcap s1 s2 hs1 hs2
  have hadd : adders (setDiscount i d1) ≤ adders (setDiscount i d2) :=
    adders_mono i d1 d2 hle
  have hbole : bo1 ≤ bo2 := by
    rw [hbv1, hbv2]
    exact min_le_min le_rfl (max_le_max le_rfl (add_le_add hsle hadd))
  have hm0 : (0 : ℚ) ≤ multiplier (setDiscount i d1) :=
    le_trans (by norm_num) (resolveMultiplier_ge _)
  have hmeq : multiplier (setDiscount i d1) = multiplier (setDiscount i d2) :=
    rfl
  have hple : p1 ≤ p2 := by
    rw [← hpe1, ← hpe2]
    show min 100 ((bo1 : ℚ) * multiplier (setDiscount i d1)) ≤
      min 100 ((bo2 : ℚ) * multiplier (setDiscount i d2))
    rw [← hmeq]
    exact min_le_min le_rfl
      (mul_le_mul_of_nonneg_right (by exact_mod_cast hbole) hm0)
  rw [← hf1, ← hf2]
  show applyOverrides p1 i.nonStandardContract i.breakClauseNoPenalty ≤
    applyOverrides p2 i.nonStandardContract i.breakClauseNoPenalty
  exact applyOverrides_mono p1 p2 _ _ hple

/-- C9 witness: Scenario A with the discount raised from 5% to 15%,
crossing the 0.10 boundary. -/
theorem c9_witness :
    ValidInput (setDiscount scenA (1/20)) ∧
    ValidInput (setDiscount scenA (3/20)) ∧
    (1/20 : ℚ) ≤ 3/20 ∧ (1/20 : ℚ) < 1/10 ∧ (1/10 : ℚ) ≤ 3/20 ∧
    final_ors (setDiscount scenA (1/20)) = some 100 ∧
    final_ors (setDiscount scenA (3/20)) = some 100 ∧
    (100 : ℚ) ≤ 100 := by
  have hv1 : ValidInput (setDiscount scenA (1/20)) := by
    norm_num [ValidInput, setDiscount, scenA]
  have hv2 : ValidInput (setDiscount scenA (3/20)) := by
    norm_num [ValidInput, setDiscount, scenA]
  have he1 : final_ors (setDiscount scenA (1/20)) = some 100 := by
    simp [final_ors, pre_override, base_ors, base_score, adders, disc_risk,
      term_risk, proj_risk, ps_risk, pay_risk, multiplier, resolveMultiplier,
      acv_for_multiplier, acv_for_base, applyOverrides, setDiscount, scenA]
    norm_num
  have he2 : final_ors (setDiscount scenA (3/20)) = some 100 := by
    simp [final_ors, pre_override, base_ors, base_score, adders, disc_risk,
      term_risk, proj_risk, ps_risk, pay_risk, multiplier, resolveMultiplier,
      acv_for_multiplier, acv_for_base, applyOverrides, setDiscount, scenA]
    norm_num
  exact ⟨hv1, hv2, by norm_num, by norm_num, by norm_num, he1, he2,
    c9_discount_monotone scenA (1/20) (3/20) hv1 hv2 (by norm_num)
      (Or.inl ⟨by norm_num, by norm_num⟩) 100 100 he1 he2⟩

end ORS
